import Mathlib

set_option maxHeartbeats 1000000

/- Verification development for the serp-project editor core
   (src/editor-classes.tsx): the hierarchical scene model with snapshot
   isolation and the k-means coverage optimizer.  JS numbers on the paths
   verified here are modelled as exact rationals; JS object references are
   modelled as natural-number ids where object identity matters. -/

/-- Coordinates of a THREE.Vector3, modelled as exact rationals. -/
structure Vec3 where
  x : ℚ
  y : ℚ
  z : ℚ
deriving DecidableEq

/- ------------------------------------------------------------------ -/
/- Arena model of the live node graph (Node.add / Node.remove and the
   SelectionManager).  Each JS Node object is an id; the arena maps ids to
   the mutable state the structural claims are about. -/
/- ------------------------------------------------------------------ -/

/-- State of one live Node relevant to the structural claims: the `parent`
back-reference, the ordered `children` set (a JS Set iterates in insertion
order and holds no duplicate), the `selected` flag and the `key`. -/
structure NodeData where
  parent : Option Nat
  childrenList : List Nat
  selected : Bool
  key : String
deriving DecidableEq

/-- Arena of live nodes: a total map from node id to its current state. -/
def Arena : Type := Nat → NodeData

/-- Point update of an arena at one node id. -/
def Arena.update (a : Arena) (i : Nat) (d : NodeData) : Arena :=
  fun j => if j = i then d else a j

/-- JS `Set.prototype.add`: appends if absent, keeps insertion order otherwise. -/
def jsSetAdd (l : List Nat) (x : Nat) : List Nat :=
  if x ∈ l then l else l ++ [x]

/-- JS `Set.prototype.delete`: removes the element if present. -/
def jsSetDelete (l : List Nat) (x : Nat) : List Nat :=
  l.erase x

/-- Node.add (editor-classes.tsx lines 26-30): `this.children.add(node);
node.parent = this` followed by a hierarchy-change notification unless
silent.  `onHeirarchyChange` only logs a warning and re-renders; it never
writes `parent`, `children` or `selected` of any live node, so it is
invisible in this state.  Note that the source does not detach `node` from
any previous parent. -/
def Node.add (a : Arena) (self node : Nat) : Arena :=
  let a1 := a.update self { a self with childrenList := jsSetAdd (a self).childrenList node }
  a1.update node { a1 node with parent := some self }

/-- Node.remove (lines 32-36): `this.children.delete(node); delete node.parent`
followed by a notification unless silent. -/
def Node.remove (a : Arena) (self node : Nat) : Arena :=
  let a1 := a.update self { a self with childrenList := jsSetDelete (a self).childrenList node }
  a1.update node { a1 node with parent := none }

/-- Combined state for the selection claims: the arena of live nodes plus the
SelectionManager's `selected` field (a reference to the selected node, or
null). -/
structure EditorState where
  arena : Arena
  selSelected : Option Nat

/-- SelectionManager.unselect (lines 264-270): clears the selected node's
`selected` flag if one is selected (its `onSelectionChange(false)` stores the
same flag again), then sets `this.selected = null`. -/
def SelectionManager.unselect (s : EditorState) : EditorState :=
  let a' := match s.selSelected with
    | some i => s.arena.update i { s.arena i with selected := false }
    | none => s.arena
  { arena := a', selSelected := none }

/-- SelectionManager.isSelected (lines 277-279):
`node === this.selected || node.key === this.selected?.key`; when nothing is
selected the optional chain yields undefined and the comparison is false. -/
def SelectionManager.isSelected (s : EditorState) (node : Nat) : Bool :=
  s.selSelected == some node ||
    (match s.selSelected with
     | some m => (s.arena node).key == (s.arena m).key
     | none => false)

/-- Removal lifted to the combined state: `parent.remove(node)` touches only
the arena; the source contains no call from `Node.remove` (nor from
`deleteSelf`) into the SelectionManager. -/
def EditorState.removeNode (s : EditorState) (parent node : Nat) : EditorState :=
  { s with arena := Node.remove s.arena parent node }

/-- Helper: the element just added by a JS set add is a member. -/
theorem mem_jsSetAdd_self (l : List Nat) (x : Nat) : x ∈ jsSetAdd l x := by
  by_cases h : x ∈ l <;> simp [jsSetAdd, h]

/-- Default node state: detached, childless, unselected. -/
def NodeData.empty : NodeData :=
  { parent := none, childrenList := [], selected := false, key := "" }

/-- Concrete arena for C1: node 0 (the prior parent p) has child 1 (c); node 2
(the new parent n) is unrelated. -/
def arenaC1 : Arena := fun i =>
  if i = 0 then { parent := none, childrenList := [1], selected := false, key := "p" }
  else if i = 1 then { parent := some 0, childrenList := [], selected := false, key := "c" }
  else NodeData.empty

/-- C1 counterexample: with live nodes p = 0, c = 1, n = 2, where c is already
a child of p and p ≠ n, after `n.add(c)` the prior parent p still holds c in
its children set, refuting the claim that `add` detaches the child from its
prior parent first (so c ends up in two children sets at once). -/
theorem C1_add_does_not_detach_counterexample :
    (arenaC1 1).parent = some 0 ∧ (1 : Nat) ∈ (arenaC1 0).childrenList ∧ (0 : Nat) ≠ 2 ∧
    ((Node.add arenaC1 2 1) 1).parent = some 2 ∧
    (1 : Nat) ∈ ((Node.add arenaC1 2 1) 0).childrenList := by
  decide

/-- C1 amended: `n.add(c)` sets c's `parent` field to n and inserts c into n's
children set, but performs no detachment: a prior parent p (p ≠ n) still
contains c in its children set afterwards, so the live graph can become
multi-parented; detachment happens only through an explicit `remove`. -/
theorem C1_add_leaves_stale_child_amended (a : Arena) (n c p : Nat)
    (hp : (a c).parent = some p) (hc : c ∈ (a p).childrenList) (hpn : p ≠ n) :
    ((Node.add a n c) c).parent = some n ∧
    c ∈ ((Node.add a n c) n).childrenList ∧
    c ∈ ((Node.add a n c) p).childrenList := by
  refine ⟨?_, ?_, ?_⟩
  · simp [Node.add, Arena.update]
  · by_cases hnc : n = c
    · subst hnc
      simp [Node.add, Arena.update, mem_jsSetAdd_self]
    · simp [Node.add, Arena.update, hnc, mem_jsSetAdd_self]
  · by_cases hpc : p = c
    · subst hpc
      simp [Node.add, Arena.update, hpn, hc]
    · simp [Node.add, Arena.update, hpn, hpc, hc]

/-- C1 amended claim exercised at the concrete arena of the counterexample. -/
theorem C1_add_leaves_stale_child_witness :
    (arenaC1 1).parent = some 0 ∧ (1 : Nat) ∈ (arenaC1 0).childrenList ∧ (0 : Nat) ≠ 2 ∧
    (((Node.add arenaC1 2 1) 1).parent = some 2 ∧
     (1 : Nat) ∈ ((Node.add arenaC1 2 1) 2).childrenList ∧
     (1 : Nat) ∈ ((Node.add arenaC1 2 1) 0).childrenList) :=
  ⟨by decide, by decide, by decide,
   C1_add_leaves_stale_child_amended arenaC1 2 1 0 (by decide) (by decide) (by decide)⟩

/-- Concrete state for C8: node 0 is the root with child 1; node 1 is the
currently selected node (flag set, held by the SelectionManager). -/
def arenaC8 : Arena := fun i =>
  if i = 0 then { parent := none, childrenList := [1], selected := false, key := "model" }
  else if i = 1 then { parent := some 0, childrenList := [], selected := true, key := "room" }
  else NodeData.empty

/-- Concrete editor state for C8. -/
def stateC8 : EditorState := { arena := arenaC8, selSelected := some 1 }

/-- C8 counterexample: node 1 is selected (manager reference and flag) and is a
child of node 0; after `0.remove(1)` the SelectionManager still holds node 1,
its `selected` flag is still true and `isSelected` still reports it, refuting
the claim that explicit removal clears the selection. -/
theorem C8_remove_does_not_clear_selection_counterexample :
    stateC8.selSelected = some 1 ∧ (stateC8.arena 1).selected = true ∧
    (1 : Nat) ∈ (stateC8.arena 0).childrenList ∧
    (stateC8.removeNode 0 1).selSelected = some 1 ∧
    ((stateC8.removeNode 0 1).arena 1).selected = true ∧
    SelectionManager.isSelected (stateC8.removeNode 0 1) 1 = true := by
  decide

/-- C8 amended: removing the currently selected node n from its parent does
not clear the selection: `Node.remove` never calls into the
SelectionManager, so afterwards the manager still holds n and n's `selected`
flag is still true; the selection changes only through explicit
`select`/`unselect` calls. -/
theorem C8_remove_preserves_selection_amended (s : EditorState) (p n : Nat)
    (hsel : s.selSelected = some n) (hflag : (s.arena n).selected = true) :
    (s.removeNode p n).selSelected = some n ∧
    ((s.removeNode p n).arena n).selected = true := by
  constructor
  · simpa [EditorState.removeNode] using hsel
  · by_cases hnp : n = p
    · subst hnp
      simpa [EditorState.removeNode, Node.remove, Arena.update] using hflag
    · simpa [EditorState.removeNode, Node.remove, Arena.update, hnp] using hflag

/-- C8 amended claim exercised at the concrete state of the counterexample. -/
theorem C8_remove_preserves_selection_witness :
    stateC8.selSelected = some 1 ∧ (stateC8.arena 1).selected = true ∧
    ((stateC8.removeNode 0 1).selSelected = some 1 ∧
     ((stateC8.removeNode 0 1).arena 1).selected = true) :=
  ⟨by decide, by decide,
   C8_remove_preserves_selection_amended stateC8 0 1 (by decide) (by decide)⟩

/- ------------------------------------------------------------------ -/
/- ObjectNode.setSize (C10). -/
/- ------------------------------------------------------------------ -/

/-- Geometric state of an ObjectNode: its `position` and `size` vectors. -/
structure ObjectNodeState where
  position : Vec3
  size : Vec3
deriving DecidableEq

/-- ObjectNode.setSize (lines 174-186): compares `size.toArray()` with the
stored size componentwise (`===`); only when some component differs does it
store `size.clone()` (a fresh value copy) and, unless silent, emit a
hierarchy-change notification.  The returned Bool records whether
`onHeirarchyChange` was invoked. -/
def ObjectNode.setSize (o : ObjectNodeState) (size : Vec3) (silent : Bool) :
    ObjectNodeState × Bool :=
  let equal := o.size.x == size.x && o.size.y == size.y && o.size.z == size.z
  if equal then (o, false)
  else ({ o with size := size }, !silent)

/-- C10: calling `setSize(s, false)` with `s` componentwise equal to the
current size leaves the state unchanged (the stored size is still the very
same object and value) and emits no notification; when `s` differs in some
component, the stored size becomes (a clone of) `s` and exactly one
notification is emitted. -/
theorem C10_setSize_frame (o : ObjectNodeState) (s : Vec3) :
    (o.size = s → ObjectNode.setSize o s false = (o, false)) ∧
    (o.size ≠ s → ObjectNode.setSize o s false = ({ o with size := s }, true)) := by
  constructor
  · intro h
    simp [ObjectNode.setSize, h]
  · intro h
    have hcomp : ¬(o.size.x = s.x ∧ o.size.y = s.y ∧ o.size.z = s.z) := by
      intro hall
      apply h
      obtain ⟨h1, h2, h3⟩ := hall
      cases hsz : o.size
      cases hs : s
      simp_all
    by_cases h1 : o.size.x = s.x
    · by_cases h2 : o.size.y = s.y
      · by_cases h3 : o.size.z = s.z
        · exact absurd ⟨h1, h2, h3⟩ hcomp
        · simp [ObjectNode.setSize, h1, h2, h3]
      · simp [ObjectNode.setSize, h1, h2]
    · simp [ObjectNode.setSize, h1]

/-- Concrete ObjectNode state for the C10 witness. -/
def objC10 : ObjectNodeState := ⟨⟨0, 0, 0⟩, ⟨1, 1, 1⟩⟩

/-- C10 exercised concretely: an equal size is a silent no-op, a different
size is stored and notifies. -/
theorem C10_setSize_frame_witness :
    ObjectNode.setSize objC10 ⟨1, 1, 1⟩ false = (objC10, false) ∧
    ObjectNode.setSize objC10 ⟨2, 1, 1⟩ false = ({ objC10 with size := ⟨2, 1, 1⟩ }, true) :=
  ⟨(C10_setSize_frame objC10 ⟨1, 1, 1⟩).1 (by decide),
   (C10_setSize_frame objC10 ⟨2, 1, 1⟩).2 (by decide)⟩

/- ------------------------------------------------------------------ -/
/- Value-level model of whole trees with explicit object identities, for
   generateSnapshot, toJSON / fromJSON and isSnapshot.  Fresh JS objects
   are modelled by allocating ids from a monotone counter. -/
/- ------------------------------------------------------------------ -/

/-- Kind-specific attributes of the five constructible node classes.  Router's
`strength` (45) and `halfDistance` (5) are class constants that no code path
ever assigns, so they are not part of the per-node state. -/
inductive NKind where
  | plain
  | model
  | floor (height : ℚ) (position : Vec3) (size : Vec3)
  | room (position : Vec3) (size : Vec3) (color : String)
  | router (position : Vec3) (points : List Vec3)
deriving DecidableEq

/-- A tree of nodes: `id` models the object identity, `srcId` models the
`source` reference (`source === this` exactly when `srcId = id`), and the
children list is the JS Set in insertion order. -/
inductive ETree where
  | mk (id : Nat) (srcId : Nat) (key : String) (selected : Bool)
      (kind : NKind) (children : List ETree)

/-- Object identity of the node. -/
def ETree.id : ETree → Nat
  | .mk i _ _ _ _ _ => i

/-- Identity of the node's `source` reference. -/
def ETree.srcId : ETree → Nat
  | .mk _ s _ _ _ _ => s

/-- Key of the node. -/
def ETree.key : ETree → String
  | .mk _ _ k _ _ _ => k

/-- Selection flag of the node. -/
def ETree.selected : ETree → Bool
  | .mk _ _ _ sel _ _ => sel

/-- Kind-specific attributes of the node. -/
def ETree.kind : ETree → NKind
  | .mk _ _ _ _ k _ => k

/-- Children of the node, in insertion order. -/
def ETree.children : ETree → List ETree
  | .mk _ _ _ _ _ cs => cs

/-- Structural induction principle for `ETree` giving the hypothesis on every
child of the list. -/
theorem ETree.strongInduction {P : ETree → Prop}
    (h : ∀ i s k sel kind cs, (∀ c ∈ cs, P c) → P (ETree.mk i s k sel kind cs)) :
    ∀ t, P t
  | ETree.mk i s k sel kind cs =>
    h i s k sel kind cs (fun c hc => ETree.strongInduction h c)
termination_by t => sizeOf t
decreasing_by
  have h1 : sizeOf c < sizeOf cs := List.sizeOf_lt_of_mem hc
  simp
  omega

/-- Serializable constructor arguments: the JS argument object restricted to
the keys the five class constructors read (absent keys are `none`). -/
structure Args where
  key : Option String
  height : Option ℚ
  position : Option Vec3
  size : Option Vec3
deriving DecidableEq

/-- Class name stored in each class's `name` field and used by `toJSON` and
the `fromJSON` registry. -/
def NKind.name : NKind → String
  | .plain => "Node"
  | .model => "Model"
  | .floor _ _ _ => "Floor"
  | .room _ _ _ => "Room"
  | .router _ _ => "Router"

/-- Node.getArgs and its overrides (lines 94-96, 406-408, 432-434, 518-520).
Floor serializes `this.position.y || this.height` (JS `||`: `position.y` when
non-zero, otherwise `height`); Room serializes position and size; Router
serializes position only — in particular Router's `points` set is not part of
its args. -/
def nodeGetArgs (key : String) : NKind → Args
  | .plain => ⟨some key, none, none, none⟩
  | .model => ⟨some key, none, none, none⟩
  | .floor h p _ => ⟨some key, some (if p.y = 0 then h else p.y), none, none⟩
  | .room p s _ => ⟨some key, none, some p, some s⟩
  | .router p _ => ⟨some key, none, some p, none⟩

/-- Stand-in for the random default key `String(Math.floor(Math.random() *
1000000000))` drawn when a constructor receives no key; its value never
matters below because serialized and cloned args always carry a key. -/
def randomKeyModel : String := "0"

/-- Constructor registry `fromJSONDictionary` (lines 624-630) composed with
the class constructors (lines 21-24, 163-167, 197-205, 396-399, 427-430,
513-516): builds a fresh childless node — so `source` is the node itself,
`srcId = id` — applying the JS default parameter values; yields `none` for an
unregistered name (a lookup TypeError in JS).  Floor's constructor passes
only the key on to ObjectNode, so its position and size are the defaults
whatever the args hold. -/
def constructNode (name : String) (a : Args) (freshId : Nat) : Option ETree :=
  let key := a.key.getD randomKeyModel
  if name = "Node" then some (.mk freshId freshId key false .plain [])
  else if name = "Model" then some (.mk freshId freshId key false .model [])
  else if name = "Floor" then
    some (.mk freshId freshId key false (.floor (a.height.getD 0) ⟨0, 0, 0⟩ ⟨1, 1, 1⟩) [])
  else if name = "Room" then
    some (.mk freshId freshId key false
      (.room (a.position.getD ⟨0, 0, 0⟩) (a.size.getD ⟨1, 1, 1⟩) "white") [])
  else if name = "Router" then
    some (.mk freshId freshId key false (.router (a.position.getD ⟨0, 0, 0⟩) []) [])
  else none

/-- Node.clone (lines 75-79): `new this.constructor(this.getArgs())` followed
by copying the `selected` flag.  The constructor invoked is exactly the
registry entry for the node's own class name, which always exists, so the
fallback branch below is unreachable. -/
def ETree.clone (t : ETree) (freshId : Nat) : ETree :=
  match constructNode t.kind.name (nodeGetArgs t.key t.kind) freshId with
  | some c => .mk c.id c.srcId c.key t.selected c.kind c.children
  | none => t

mutual
/-- Node.generateSnapshot (lines 81-88): clone this node, point the clone's
`source` at this node, then silently attach a snapshot of every child, in
children order.  Fresh object identities are drawn from the counter. -/
def ETree.generateSnapshot (t : ETree) (ctr : Nat) : ETree × Nat :=
  match t with
  | .mk i s k sel kind cs =>
    let c := ETree.clone (.mk i s k sel kind cs) ctr
    let r := ETree.generateSnapshotList cs (ctr + 1)
    (.mk c.id i c.key c.selected c.kind r.1, r.2)

/-- Snapshot copies of a children list, threading the id counter. -/
def ETree.generateSnapshotList : List ETree → Nat → List ETree × Nat
  | [], ctr => ([], ctr)
  | c :: rest, ctr =>
    let r1 := ETree.generateSnapshot c ctr
    let r2 := ETree.generateSnapshotList rest r1.2
    (r1.1 :: r2.1, r2.2)
end

/-- Node.isSnapshot (lines 98-100): literally `this.source === this`.  With
object identity modelled by ids this is `srcId = id`.  Note that the source
code hereby returns true precisely on live nodes, not on snapshot copies. -/
def ETree.isSnapshot (t : ETree) : Bool := t.srcId == t.id

mutual
/-- Every node of the tree, root first. -/
def ETree.allNodes : ETree → List ETree
  | .mk i s k sel kind cs => .mk i s k sel kind cs :: ETree.allNodesList cs

/-- Every node of a forest. -/
def ETree.allNodesList : List ETree → List ETree
  | [] => []
  | c :: rest => ETree.allNodes c ++ ETree.allNodesList rest
end

/-- Ids of all nodes lie below the counter value (so the counter only hands
out fresh identities). -/
def ETree.idsBelow (t : ETree) (c : Nat) : Bool :=
  t.allNodes.all (fun n => n.id < c)

/-- Floor position/height synchronisation: `Floor.setPosition` always stores
`height = position.y`, rendering copies `height` into `position.y`, and
construction leaves `position.y = 0`; hence on every reachable floor,
`position.y` is 0 or equals `height`.  `Floor.getArgs` relies on this. -/
def NKind.floorSync : NKind → Bool
  | .floor h p _ => p.y == 0 || p.y == h
  | _ => true

/-- Reachable-state invariant used by the snapshot and serialization claims:
every floor in the tree satisfies `floorSync`. -/
def ETree.wellFormed (t : ETree) : Bool :=
  t.allNodes.all (fun n => n.kind.floorSync)

/-- Kind produced by re-running a node's own constructor on its `getArgs()`
(this is a description of `clone`; `clone_eq` below proves it). -/
def NKind.cloneKind : NKind → NKind
  | .plain => .plain
  | .model => .model
  | .floor h p _ => .floor (if p.y = 0 then h else p.y) ⟨0, 0, 0⟩ ⟨1, 1, 1⟩
  | .room p s _ => .room p s "white"
  | .router p _ => .router p []

/-- Unfolding of `clone`: a fresh childless node with the same key, the copied
`selected` flag, `source` pointing at itself, and the reconstructed kind. -/
theorem clone_eq (t : ETree) (fid : Nat) :
    t.clone fid = .mk fid fid t.key t.selected t.kind.cloneKind [] := by
  cases t with
  | mk i s k sel kind cs => cases kind <;> rfl

/-- Unfolding of `generateSnapshot` on a constructor. -/
theorem generateSnapshot_eq (i s : Nat) (k : String) (sel : Bool) (kind : NKind)
    (cs : List ETree) (ctr : Nat) :
    ETree.generateSnapshot (.mk i s k sel kind cs) ctr =
      (.mk ctr i k sel kind.cloneKind (ETree.generateSnapshotList cs (ctr + 1)).1,
       (ETree.generateSnapshotList cs (ctr + 1)).2) := by
  simp only [ETree.generateSnapshot, clone_eq]
  rfl

/-- Counter monotonicity of `generateSnapshotList`, given it for each child. -/
theorem gsList_counter_mono (l : List ETree)
    (hall : ∀ c ∈ l, ∀ c0, c0 ≤ (ETree.generateSnapshot c c0).2) :
    ∀ c0, c0 ≤ (ETree.generateSnapshotList l c0).2 := by
  induction l with
  | nil =>
    intro c0
    simp [ETree.generateSnapshotList]
  | cons c rest ih =>
    intro c0
    have h1 := hall c (by simp) c0
    have h2 := ih (fun x hx => hall x (by simp [hx])) ((ETree.generateSnapshot c c0).2)
    simp only [ETree.generateSnapshotList]
    omega

/-- Counter monotonicity of `generateSnapshot`. -/
theorem gs_counter_mono (t : ETree) : ∀ c0, c0 ≤ (ETree.generateSnapshot t c0).2 := by
  induction t using ETree.strongInduction with
  | _ i s k sel kind cs ih =>
    intro c0
    have := gsList_counter_mono cs ih (c0 + 1)
    simp only [generateSnapshot_eq]
    omega

/-- Freshness of snapshot forests: every node of the snapshot of a forest has
an id at or above the starting counter, and a `source` pointing at some node
of the original forest. -/
theorem gsList_fresh (l : List ETree)
    (hmono : ∀ c ∈ l, ∀ c0, c0 ≤ (ETree.generateSnapshot c c0).2)
    (hall : ∀ c ∈ l, ∀ c0 n, n ∈ ((ETree.generateSnapshot c c0).1).allNodes →
      c0 ≤ n.id ∧ ∃ m ∈ c.allNodes, n.srcId = m.id) :
    ∀ c0 n, n ∈ ETree.allNodesList ((ETree.generateSnapshotList l c0).1) →
      c0 ≤ n.id ∧ ∃ m ∈ ETree.allNodesList l, n.srcId = m.id := by
  induction l with
  | nil =>
    intro c0 n hn
    simp [ETree.generateSnapshotList, ETree.allNodesList] at hn
  | cons c rest ih =>
    intro c0 n hn
    simp only [ETree.generateSnapshotList, ETree.allNodesList, List.mem_append] at hn
    rcases hn with hn | hn
    · obtain ⟨h1, m, hm, h2⟩ := hall c (by simp) c0 n hn
      exact ⟨h1, m, by simp [ETree.allNodesList, List.mem_append, hm], h2⟩
    · have hc0 : c0 ≤ (ETree.generateSnapshot c c0).2 := hmono c (by simp) c0
      obtain ⟨h1, m, hm, h2⟩ := ih (fun x hx => hmono x (by simp [hx]))
        (fun x hx => hall x (by simp [hx])) ((ETree.generateSnapshot c c0).2) n hn
      exact ⟨by omega, m, by simp [ETree.allNodesList, List.mem_append, hm], h2⟩

/-- Freshness of snapshots: every node of `generateSnapshot t ctr` has an id at
or above `ctr` and a `source` pointing at some node of `t`. -/
theorem gs_fresh (t : ETree) :
    ∀ ctr n, n ∈ ((ETree.generateSnapshot t ctr).1).allNodes →
      ctr ≤ n.id ∧ ∃ m ∈ t.allNodes, n.srcId = m.id := by
  induction t using ETree.strongInduction with
  | _ i s k sel kind cs ih =>
    intro ctr n hn
    rw [generateSnapshot_eq] at hn
    simp only [ETree.allNodes, List.mem_cons] at hn
    rcases hn with hn | hn
    · subst hn
      refine ⟨le_refl ctr, .mk i s k sel kind cs, ?_, rfl⟩
      simp [ETree.allNodes]
    · have hmono : ∀ c ∈ cs, ∀ c0, c0 ≤ (ETree.generateSnapshot c c0).2 :=
        fun c _ c0 => gs_counter_mono c c0
      obtain ⟨h1, m, hm, h2⟩ := gsList_fresh cs hmono ih (ctr + 1) n hn
      refine ⟨by omega, m, ?_, h2⟩
      simp [ETree.allNodes, hm]

/-- C9: `isSnapshot()` returns `this.source === this`, so it is true exactly
when the node's `source` is the node itself; consequently it is true for
every node built by a constructor (whose `source` is initialised to itself)
and false for every node of a copy produced by `generateSnapshot` (whose
`source` is set to the corresponding live original), provided the id counter
only hands out fresh identities. -/
theorem C9_isSnapshot_semantics :
    (∀ t : ETree, t.isSnapshot = true ↔ t.srcId = t.id) ∧
    (∀ name a i t, constructNode name a i = some t → t.isSnapshot = true) ∧
    (∀ (t : ETree) ctr, t.idsBelow ctr = true →
      ∀ n ∈ ((ETree.generateSnapshot t ctr).1).allNodes, n.isSnapshot = false) := by
  refine ⟨?_, ?_, ?_⟩
  · intro t
    simp [ETree.isSnapshot]
  · intro name a i t h
    unfold constructNode at h
    split_ifs at h <;>
      simp only [Option.some.injEq] at h <;>
      subst h <;>
      simp [ETree.isSnapshot, ETree.srcId, ETree.id]
  · intro t ctr hbelow n hn
    obtain ⟨h1, m, hm, h2⟩ := gs_fresh t ctr n hn
    have hmlt : m.id < ctr := by
      have := List.all_eq_true.mp hbelow m hm
      simpa using this
    simp only [ETree.isSnapshot, beq_eq_false_iff_ne, ne_eq, h2]
    omega

/-- Concrete live tree for the C9 witness: a Model root with a Router child. -/
def treeC9 : ETree :=
  .mk 0 0 "m" false .model [.mk 1 1 "r" false (.router ⟨0, 0, 0⟩ []) []]

/-- C9 exercised concretely: the ids of `treeC9` lie below 2, and the root of
its snapshot generated with counter 2 has `isSnapshot = false` (its `source`
is the live root, not itself). -/
theorem C9_isSnapshot_semantics_witness :
    treeC9.idsBelow 2 = true ∧
    (ETree.generateSnapshot treeC9 2).1.isSnapshot = false :=
  ⟨by rfl,
   C9_isSnapshot_semantics.2.2 treeC9 2 (by rfl) (ETree.generateSnapshot treeC9 2).1
     (by rw [show treeC9 = .mk 0 0 "m" false .model [.mk 1 1 "r" false (.router ⟨0, 0, 0⟩ []) []] from rfl, generateSnapshot_eq]
         exact List.mem_cons_self _ _)⟩

/-- Membership in the flattened node list of a forest. -/
theorem mem_allNodesList (l : List ETree) (c : ETree) (hc : c ∈ l) :
    ∀ n ∈ c.allNodes, n ∈ ETree.allNodesList l := by
  induction l with
  | nil => cases hc
  | cons d rest ih =>
    intro n hn
    rcases List.mem_cons.mp hc with h | h
    · subst h
      simp [ETree.allNodesList, List.mem_append, hn]
    · simp [ETree.allNodesList, List.mem_append, ih h n hn]

/-- Well-formedness descends to the root kind and to every child. -/
theorem wellFormed_parts (i s : Nat) (k : String) (sel : Bool) (kind : NKind)
    (cs : List ETree) (h : (ETree.mk i s k sel kind cs).wellFormed = true) :
    kind.floorSync = true ∧ ∀ c ∈ cs, c.wellFormed = true := by
  simp only [ETree.wellFormed, List.all_eq_true] at h ⊢
  constructor
  · exact h (.mk i s k sel kind cs) (by simp [ETree.allNodes])
  · intro c hc n hn
    apply h
    simp only [ETree.allNodes, List.mem_cons]
    exact Or.inr (mem_allNodesList cs c hc n hn)

/-- Attribute agreement between a live kind and its snapshot-copy kind: same
class, Floor heights equal, Room positions and sizes equal, Router positions
equal; the snapshot Router's assigned-point set is the fresh empty one. -/
def snapshotKindRel : NKind → NKind → Bool
  | .plain, .plain => true
  | .model, .model => true
  | .floor h _ _, .floor h' _ _ => h == h'
  | .room p s _, .room p' s' _ => p == p' && s == s'
  | .router p _, .router p' pts' => p == p' && pts'.isEmpty
  | _, _ => false

mutual
/-- Relation between a live tree and its snapshot (amended C2): identical
shape, each snapshot node's `source` equal to the live node's identity, and
kind agreement per `snapshotKindRel`. -/
def snapshotRel : ETree → ETree → Bool
  | .mk i _ _ _ kind cs, .mk _ s' _ _ kind' cs' =>
    (s' == i) && snapshotKindRel kind kind' && snapshotRelList cs cs'

/-- Pointwise snapshot relation on children lists (same length required). -/
def snapshotRelList : List ETree → List ETree → Bool
  | [], [] => true
  | c :: r, c' :: r' => snapshotRel c c' && snapshotRelList r r'
  | _, _ => false
end

/-- Cloning respects the kind agreement, given the floor invariant. -/
theorem snapshotKindRel_cloneKind (kind : NKind) (h : kind.floorSync = true) :
    snapshotKindRel kind kind.cloneKind = true := by
  cases kind with
  | floor hh p s =>
    simp only [NKind.floorSync, Bool.or_eq_true, beq_iff_eq] at h
    rcases h with h | h <;> simp [NKind.cloneKind, snapshotKindRel, h]
  | _ => simp [NKind.cloneKind, snapshotKindRel]

/-- Snapshot relation for forests, given it for each member. -/
theorem gsList_rel (l : List ETree)
    (hall : ∀ c ∈ l, c.wellFormed = true →
      ∀ ctr, snapshotRel c (ETree.generateSnapshot c ctr).1 = true)
    (hwf : ∀ c ∈ l, c.wellFormed = true) :
    ∀ ctr, snapshotRelList l (ETree.generateSnapshotList l ctr).1 = true := by
  induction l with
  | nil =>
    intro ctr
    simp [ETree.generateSnapshotList, snapshotRelList]
  | cons c rest ih =>
    intro ctr
    have h1 := hall c (by simp) (hwf c (by simp)) ctr
    have h2 := ih (fun x hx => hall x (by simp [hx])) (fun x hx => hwf x (by simp [hx]))
      ((ETree.generateSnapshot c ctr).2)
    simp only [ETree.generateSnapshotList, snapshotRelList]
    simp [h1, h2]

/-- C2 amended: for every live tree satisfying the floor invariant,
`generateSnapshot` produces a tree of identical shape in which every node has
the same class, every snapshot node's `source` is the corresponding live
node, Floor heights, Room positions/sizes and Router positions are copied —
but a snapshot Router's assigned-point set is a fresh empty set (Router's
`getArgs` does not serialize `points`), and its strength and half-distance
are the class constants. -/
theorem C2_generateSnapshot_amended (t : ETree) (hwf : t.wellFormed = true) :
    ∀ ctr, snapshotRel t (ETree.generateSnapshot t ctr).1 = true := by
  induction t using ETree.strongInduction with
  | _ i s k sel kind cs ih =>
    intro ctr
    obtain ⟨hkind, hcs⟩ := wellFormed_parts i s k sel kind cs hwf
    rw [generateSnapshot_eq]
    simp only [snapshotRel]
    have h1 := snapshotKindRel_cloneKind kind hkind
    have h2 := gsList_rel cs (fun c hc hw => ih c hc hw) hcs (ctr + 1)
    simp [h1, h2]

/-- Live Router with one assigned observation point, for the C2 counterexample. -/
def liveRouterC2 : ETree := .mk 0 0 "r" false (.router ⟨0, 0, 0⟩ [⟨1, 1, 1⟩]) []

/-- Points carried by a Router kind. -/
def NKind.routerPoints : NKind → List Vec3
  | .router _ pts => pts
  | _ => []

/-- C2 counterexample: a live Router holding one assigned point is snapshotted
to a Router holding none — `clone` rebuilds the Router from `getArgs()`,
which drops `points` — refuting the claim that every snapshot node carries
the same assigned-point set as the live node it copies. -/
theorem C2_snapshot_points_counterexample :
    liveRouterC2.kind.routerPoints = [⟨1, 1, 1⟩] ∧
    (ETree.generateSnapshot liveRouterC2 1).1.kind.routerPoints = [] := by
  exact ⟨rfl, rfl⟩

/-- Concrete well-formed live tree for the C2 witness. -/
def treeC2 : ETree :=
  .mk 0 0 "m" false .model
    [.mk 1 1 "f" false (.floor 2 ⟨0, 2, 0⟩ ⟨1, 1, 1⟩)
      [.mk 2 2 "rm" false (.room ⟨1, 2, 3⟩ ⟨4, 1, 4⟩ "white") [],
       .mk 3 3 "rt" false (.router ⟨1, 2, 3⟩ [⟨0, 0, 0⟩]) []]]

/-- C2 amended claim exercised at a concrete model/floor/room/router tree. -/
theorem C2_generateSnapshot_amended_witness :
    treeC2.wellFormed = true ∧ snapshotRel treeC2 (ETree.generateSnapshot treeC2 10).1 = true :=
  ⟨by rfl, C2_generateSnapshot_amended treeC2 (by rfl) 10⟩

/- ------------------------------------------------------------------ -/
/- Serialization: Node.toJSON / Node.fromJSON (C7). -/
/- ------------------------------------------------------------------ -/

/-- Serialized tree shape `{ name, args, children }` (line 8). -/
inductive JTree where
  | mk (name : String) (args : Args) (children : List JTree)

mutual
/-- Node.toJSON (lines 102-110): `{ name: this.name, args: this.getArgs(),
children: Array.from(this.children).map(c => c.toJSON()) }`; the mismatched-
name console warning has no effect on the result. -/
def ETree.toJSON : ETree → JTree
  | .mk _ _ key _ kind cs => .mk kind.name (nodeGetArgs key kind) (ETree.toJSONList cs)

/-- Serialization of a children list, in insertion order. -/
def ETree.toJSONList : List ETree → List JTree
  | [] => []
  | c :: rest => ETree.toJSON c :: ETree.toJSONList rest
end

mutual
/-- Node.fromJSON (lines 112-120): constructs via the name registry — an
unknown name is a lookup failure that aborts the whole deserialization — and
then `add`s each deserialized child in listed order (the resulting
notifications do not change the tree being built). -/
def ETree.fromJSON : JTree → Nat → Option (ETree × Nat)
  | .mk name args jcs, ctr =>
    match constructNode name args ctr with
    | none => none
    | some t =>
      match ETree.fromJSONList jcs (ctr + 1) with
      | none => none
      | some (cs, ctr') => some (.mk t.id t.srcId t.key t.selected t.kind cs, ctr')

/-- Deserialization of a children list, threading the id counter and
propagating failures. -/
def ETree.fromJSONList : List JTree → Nat → Option (List ETree × Nat)
  | [], ctr => some ([], ctr)
  | j :: rest, ctr =>
    match ETree.fromJSON j ctr with
    | none => none
    | some (c, ctr1) =>
      match ETree.fromJSONList rest ctr1 with
      | none => none
      | some (cs, ctr2) => some (c :: cs, ctr2)
end

/-- Attribute agreement checked by the round-trip claim: same class at every
node, Floor heights equal, Room positions and sizes equal, Router positions
equal (identifiers and the remaining state may differ). -/
def kindEquivC7 : NKind → NKind → Bool
  | .plain, .plain => true
  | .model, .model => true
  | .floor h _ _, .floor h' _ _ => h == h'
  | .room p s _, .room p' s' _ => p == p' && s == s'
  | .router p _, .router p' _ => p == p'
  | _, _ => false

mutual
/-- Structural and attribute-wise equality up to identifiers (C7). -/
def equivC7 : ETree → ETree → Bool
  | .mk _ _ _ _ kind cs, .mk _ _ _ _ kind' cs' =>
    kindEquivC7 kind kind' && equivC7List cs cs'

/-- Pointwise round-trip equivalence on children lists. -/
def equivC7List : List ETree → List ETree → Bool
  | [], [] => true
  | c :: r, c' :: r' => equivC7 c c' && equivC7List r r'
  | _, _ => false
end

/-- Re-running a node's constructor on its own serialized args always succeeds
and rebuilds exactly the `cloneKind` of the node. -/
theorem construct_getArgs_eq (kind : NKind) (k : String) (fid : Nat) :
    constructNode kind.name (nodeGetArgs k kind) fid =
      some (.mk fid fid k false kind.cloneKind []) := by
  cases kind <;> rfl

/-- Cloning respects the round-trip kind agreement, given the floor invariant. -/
theorem kindEquivC7_cloneKind (kind : NKind) (h : kind.floorSync = true) :
    kindEquivC7 kind kind.cloneKind = true := by
  cases kind with
  | floor hh p s =>
    simp only [NKind.floorSync, Bool.or_eq_true, beq_iff_eq] at h
    rcases h with h | h <;> simp [NKind.cloneKind, kindEquivC7, h]
  | _ => simp [NKind.cloneKind, kindEquivC7]

/-- Round trip for forests, given it for each member. -/
theorem roundTripList (l : List ETree)
    (hall : ∀ c ∈ l, c.wellFormed = true →
      ∀ ctr, ∃ r, ETree.fromJSON c.toJSON ctr = some r ∧ equivC7 c r.1 = true)
    (hwf : ∀ c ∈ l, c.wellFormed = true) :
    ∀ ctr, ∃ rl, ETree.fromJSONList (ETree.toJSONList l) ctr = some rl ∧
      equivC7List l rl.1 = true := by
  induction l with
  | nil =>
    intro ctr
    exact ⟨([], ctr), rfl, rfl⟩
  | cons c rest ih =>
    intro ctr
    obtain ⟨⟨c', ctr1⟩, h1, h2⟩ := hall c (by simp) (hwf c (by simp)) ctr
    obtain ⟨⟨rs, ctr2⟩, h3, h4⟩ := ih (fun x hx => hall x (by simp [hx]))
      (fun x hx => hwf x (by simp [hx])) ctr1
    refine ⟨(c' :: rs, ctr2), ?_, ?_⟩
    · simp only [ETree.toJSONList, ETree.fromJSONList, h1, h3]
    · simp [equivC7List, h2, h4]

/-- C7: for every well-formed tree (floors satisfy the position/height
synchronisation maintained by all code paths), `fromJSON(toJSON(T))` succeeds
and produces a tree structurally equal to `T` — same shape, same classes,
children in the same order — and attribute-wise equal at every node (Floor
height, Room position and size, Router position); identifiers may differ. -/
theorem C7_serialization_round_trip (t : ETree) (hwf : t.wellFormed = true) :
    ∀ ctr, ∃ r, ETree.fromJSON t.toJSON ctr = some r ∧ equivC7 t r.1 = true := by
  induction t using ETree.strongInduction with
  | _ i s k sel kind cs ih =>
    intro ctr
    obtain ⟨hkind, hcs⟩ := wellFormed_parts i s k sel kind cs hwf
    obtain ⟨⟨rs, ctr'⟩, h3, h4⟩ := roundTripList cs (fun c hc hw => ih c hc hw) hcs (ctr + 1)
    refine ⟨(.mk ctr ctr k false kind.cloneKind rs, ctr'), ?_, ?_⟩
    · simp only [ETree.toJSON, ETree.fromJSON, construct_getArgs_eq, ETree.id, ETree.srcId,
        ETree.key, ETree.selected, ETree.kind, h3]
    · simp [equivC7, kindEquivC7_cloneKind kind hkind, h4]

/-- C7 exercised at a concrete model/floor/room/router tree. -/
theorem C7_serialization_round_trip_witness :
    treeC2.wellFormed = true ∧
    (ETree.fromJSON treeC2.toJSON 50).isSome = true ∧
    equivC7 treeC2 ((ETree.fromJSON treeC2.toJSON 50).getD (treeC2, 0)).1 = true := by
  obtain ⟨r, h1, h2⟩ := C7_serialization_round_trip treeC2 (by rfl) 50
  refine ⟨by rfl, ?_, ?_⟩
  · rw [h1]
    rfl
  · rw [h1]
    exact h2

/- ------------------------------------------------------------------ -/
/- Room.getPointCloud (C6). -/
/- ------------------------------------------------------------------ -/

/-- Geometry of a Room: a box centred at `position` with edge lengths `size`. -/
structure RoomBox where
  position : Vec3
  size : Vec3
deriving DecidableEq

/-- JS test `n % 2 === 0` on a number: true exactly for even integers (JS `%`
keeps the fractional part, so a non-integer never passes; `-0 === 0` holds). -/
def jsEvenQ (q : ℚ) : Bool := q.den == 1 && q.num % 2 == 0

/-- Iteration count of the loop `for (v = 0; v < s; v += 1/2)`: the values are
v = k/2, so the loop body runs ⌈2s⌉ times (clamped to ℕ).  The accumulation
is exact even in binary floating point since 1/2 is representable, so the
rational model is faithful.  The ceiling is spelled with the computable
`Rat.floor` so that concrete clouds evaluate inside the kernel;
`gridSteps_eq_ceil` relates it to the mathlib ceiling. -/
def gridSteps (s : ℚ) : Nat := (-(Rat.floor (-(2 * s)))).toNat

/-- Batteries' computable `Rat.floor` agrees with the mathlib floor. -/
theorem ratFloor_eq_intFloor (q : ℚ) : Rat.floor q = ⌊q⌋ := by
  rw [Rat.floor_def', Rat.floor_def]

/-- The grid step count is the ceiling of twice the size component. -/
theorem gridSteps_eq_ceil (s : ℚ) : gridSteps s = (⌈2 * s⌉).toNat := by
  unfold gridSteps
  rw [ratFloor_eq_intFloor, Int.floor_neg, neg_neg]

/-- Grid part of Room.getPointCloud (lines 437-449): triple loop x outermost,
starting at the corner `position - size/2 + (1,1,1)/4` ("tucked inside of the
cube a bit"), stepping by 1/2 while each accumulated offset stays below the
matching size component. -/
def RoomBox.gridPoints (r : RoomBox) : List Vec3 :=
  (List.range (gridSteps r.size.x)).flatMap (fun (i : ℕ) =>
    (List.range (gridSteps r.size.y)).flatMap (fun (j : ℕ) =>
      (List.range (gridSteps r.size.z)).map (fun (k : ℕ) =>
        ⟨r.position.x - r.size.x / 2 + 1 / 4 + (i : ℚ) / 2,
         r.position.y - r.size.y / 2 + 1 / 4 + (j : ℚ) / 2,
         r.position.z - r.size.z / 2 + 1 / 4 + (k : ℚ) / 2⟩)))

/-- Room.getPointCloud (lines 436-456): the grid points, followed by the
room's exact center `position` whenever any component of `size` passes the JS
evenness test `size % 2 === 0`. -/
def RoomBox.getPointCloud (r : RoomBox) : List Vec3 :=
  if jsEvenQ r.size.x || jsEvenQ r.size.y || jsEvenQ r.size.z then
    r.gridPoints ++ [r.position]
  else r.gridPoints

/-- Open box test: the point lies strictly inside the room's volume. -/
def RoomBox.strictlyInside (r : RoomBox) (p : Vec3) : Prop :=
  r.position.x - r.size.x / 2 < p.x ∧ p.x < r.position.x + r.size.x / 2 ∧
  r.position.y - r.size.y / 2 < p.y ∧ p.y < r.position.y + r.size.y / 2 ∧
  r.position.z - r.size.z / 2 < p.z ∧ p.z < r.position.z + r.size.z / 2

/-- Unit-size room at the origin: each dimension yields two sample points (an
even count), yet no size component is an even integer. -/
def roomC6a : RoomBox := ⟨⟨0, 0, 0⟩, ⟨1, 1, 1⟩⟩

/-- Room of size 3/5 along x: its grid extends past the box. -/
def roomC6b : RoomBox := ⟨⟨0, 0, 0⟩, ⟨3 / 5, 1, 1⟩⟩


/-- Evaluation rule for `gridSteps` when twice the size is a natural number. -/
theorem gridSteps_natCast (s : ℚ) (m : ℕ) (hm : 2 * s = (m : ℚ)) : gridSteps s = m := by
  rw [gridSteps_eq_ceil, hm]
  simp

/-- Characterisation of the JS evenness test: it passes exactly the even
integers. -/
theorem jsEvenQ_iff (q : ℚ) : jsEvenQ q = true ↔ ∃ m : ℤ, q = 2 * (m : ℚ) := by
  unfold jsEvenQ
  simp only [Bool.and_eq_true, beq_iff_eq]
  constructor
  · rintro ⟨h1, h2⟩
    obtain ⟨m, hm⟩ := Int.dvd_of_emod_eq_zero h2
    refine ⟨m, ?_⟩
    have hq : (q.num : ℚ) = q := by
      conv_rhs => rw [← Rat.num_div_den q]
      rw [h1]
      simp
    rw [← hq, hm]
    push_cast
    ring
  · rintro ⟨m, hm⟩
    subst hm
    rw [show (2 * (m : ℚ)) = ((2 * m : ℤ) : ℚ) by push_cast; ring]
    constructor
    · exact Rat.den_intCast _
    · rw [Rat.num_intCast]
      omega

/-- A rational that is no even integer fails the JS evenness test. -/
theorem jsEvenQ_eq_false (q : ℚ) (h : ∀ m : ℤ, q ≠ 2 * (m : ℚ)) : jsEvenQ q = false := by
  cases hbe : jsEvenQ q
  · rfl
  · obtain ⟨m, hm⟩ := (jsEvenQ_iff q).mp hbe
    exact absurd hm (h m)

/-- Membership in the sampled grid of a room. -/
theorem mem_gridPoints (r : RoomBox) (p : Vec3) :
    p ∈ r.gridPoints ↔ ∃ i < gridSteps r.size.x, ∃ j < gridSteps r.size.y,
      ∃ k < gridSteps r.size.z,
      p = ⟨r.position.x - r.size.x / 2 + 1 / 4 + (i : ℚ) / 2,
           r.position.y - r.size.y / 2 + 1 / 4 + (j : ℚ) / 2,
           r.position.z - r.size.z / 2 + 1 / 4 + (k : ℚ) / 2⟩ := by
  constructor
  · intro hp
    unfold RoomBox.gridPoints at hp
    obtain ⟨i, hi, hp⟩ := List.mem_flatMap.mp hp
    obtain ⟨j, hj, hp⟩ := List.mem_flatMap.mp hp
    obtain ⟨k, hk, hp⟩ := List.mem_map.mp hp
    exact ⟨i, List.mem_range.mp hi, j, List.mem_range.mp hj, k, List.mem_range.mp hk, hp.symm⟩
  · rintro ⟨i, hi, j, hj, k, hk, rfl⟩
    unfold RoomBox.gridPoints
    refine List.mem_flatMap.mpr ⟨i, List.mem_range.mpr hi, ?_⟩
    refine List.mem_flatMap.mpr ⟨j, List.mem_range.mpr hj, ?_⟩
    exact List.mem_map.mpr ⟨k, List.mem_range.mpr hk, rfl⟩

/-- Bounds for one loop offset when twice the size component is the positive
integer m + 1: the sample offset 1/4 + i/2 stays strictly between 0 and the
size component. -/
theorem grid_offset_bounds (s : ℚ) (m : ℕ) (hm : 2 * s = (m : ℚ) + 1) (i : ℕ)
    (hi : i < gridSteps s) : (0 : ℚ) < 1 / 4 + (i : ℚ) / 2 ∧ (1 : ℚ) / 4 + (i : ℚ) / 2 < s := by
  have hsteps : gridSteps s = m + 1 := by
    apply gridSteps_natCast
    push_cast
    linarith
  rw [hsteps] at hi
  have him : (i : ℚ) ≤ (m : ℚ) := by
    exact_mod_cast Nat.lt_succ_iff.mp hi
  constructor
  · positivity
  · linarith

/-- C6 counterexample: (a) the unit room at the origin has an even number of
sample points (two) along every dimension, yet its exact center is not in the
point cloud — the code tests evenness of the size value, not of the grid
count; (b) for a room of size 3/5 along x the sample point (9/20, -1/4, -1/4)
is in the cloud but lies outside the room's volume, refuting "offset to lie
strictly inside". -/
theorem C6_pointCloud_counterexample :
    (gridSteps roomC6a.size.x % 2 = 0 ∧ gridSteps roomC6a.size.y % 2 = 0 ∧
     gridSteps roomC6a.size.z % 2 = 0 ∧ roomC6a.position ∉ roomC6a.getPointCloud) ∧
    (Vec3.mk (9 / 20) (-1 / 4) (-1 / 4) ∈ roomC6b.getPointCloud ∧
     ¬ ((9 : ℚ) / 20 < roomC6b.position.x + roomC6b.size.x / 2)) := by
  have h1 : gridSteps (1 : ℚ) = 2 := gridSteps_natCast 1 2 (by norm_num)
  have hodd : jsEvenQ (1 : ℚ) = false := by rfl
  have h35 : gridSteps ((3 : ℚ) / 5) = 2 := by
    rw [gridSteps_eq_ceil]
    rw [show ⌈2 * ((3 : ℚ) / 5)⌉ = 2 by
      rw [Int.ceil_eq_iff]
      norm_num]
    rfl
  have h35odd : jsEvenQ ((3 : ℚ) / 5) = false := by
    apply jsEvenQ_eq_false
    intro m hm
    have h10 : (3 : ℚ) = 10 * (m : ℚ) := by linarith
    have h10' : (3 : ℤ) = 10 * m := by exact_mod_cast h10
    omega
  refine ⟨⟨by rw [show roomC6a.size.x = 1 from rfl, h1], by rw [show roomC6a.size.y = 1 from rfl, h1],
    by rw [show roomC6a.size.z = 1 from rfl, h1], ?_⟩, ?_, by norm_num [roomC6b]⟩
  · intro hmem
    have hcloud : roomC6a.getPointCloud = roomC6a.gridPoints := by
      simp [RoomBox.getPointCloud, show roomC6a.size.x = 1 from rfl,
        show roomC6a.size.y = 1 from rfl, show roomC6a.size.z = 1 from rfl, hodd]
    rw [hcloud, mem_gridPoints] at hmem
    obtain ⟨i, hi, j, hj, k, hk, hp⟩ := hmem
    have hx : (0 : ℚ) = 0 - 1 / 2 + 1 / 4 + (i : ℚ) / 2 := congrArg Vec3.x hp
    rw [show roomC6a.size.x = 1 from rfl, h1] at hi
    interval_cases i <;> norm_num at hx
  · have hcloud : roomC6b.getPointCloud = roomC6b.gridPoints := by
      simp [RoomBox.getPointCloud, show roomC6b.size.x = 3 / 5 from rfl,
        show roomC6b.size.y = 1 from rfl, show roomC6b.size.z = 1 from rfl, hodd, h35odd]
    rw [hcloud, mem_gridPoints]
    refine ⟨1, ?_, 0, ?_, 0, ?_, ?_⟩
    · rw [show roomC6b.size.x = 3 / 5 from rfl, h35]
      omega
    · rw [show roomC6b.size.y = 1 from rfl, h1]
      omega
    · rw [show roomC6b.size.z = 1 from rfl, h1]
      omega
    · show Vec3.mk (9 / 20) (-1 / 4) (-1 / 4) = _
      rw [Vec3.mk.injEq]
      norm_num [roomC6b]

/-- C6 amended: `getPointCloud` samples on the fixed half-unit grid offset a
quarter-unit in from the low corner; the room's exact center is additionally
included whenever some component of `size` is an even integer (the JS test
`size % 2 === 0` — independent of the parity of the grid's point counts);
and whenever twice each size component is a positive integer the samples all
lie strictly inside the volume (otherwise a sample may fall outside it). -/
theorem C6_pointCloud_amended (r : RoomBox) :
    ((jsEvenQ r.size.x || jsEvenQ r.size.y || jsEvenQ r.size.z) = true →
      r.position ∈ r.getPointCloud) ∧
    ((∃ m : ℕ, 2 * r.size.x = (m : ℚ) + 1) → (∃ m : ℕ, 2 * r.size.y = (m : ℚ) + 1) →
     (∃ m : ℕ, 2 * r.size.z = (m : ℚ) + 1) →
      ∀ p ∈ r.getPointCloud, r.strictlyInside p) := by
  constructor
  · intro he
    simp [RoomBox.getPointCloud, he]
  · rintro ⟨mx, hmx⟩ ⟨my, hmy⟩ ⟨mz, hmz⟩ p hp
    have hgrid : ∀ q ∈ r.gridPoints, r.strictlyInside q := by
      intro q hq
      rw [mem_gridPoints] at hq
      obtain ⟨i, hi, j, hj, k, hk, rfl⟩ := hq
      obtain ⟨hx0, hx1⟩ := grid_offset_bounds r.size.x mx hmx i hi
      obtain ⟨hy0, hy1⟩ := grid_offset_bounds r.size.y my hmy j hj
      obtain ⟨hz0, hz1⟩ := grid_offset_bounds r.size.z mz hmz k hk
      refine ⟨by linarith, by linarith, by linarith, by linarith, by linarith, by linarith⟩
    have hcenter : r.strictlyInside r.position := by
      have hx : (0 : ℚ) < r.size.x := by
        have : (0 : ℚ) ≤ (mx : ℚ) := Nat.cast_nonneg mx
        linarith
      have hy : (0 : ℚ) < r.size.y := by
        have : (0 : ℚ) ≤ (my : ℚ) := Nat.cast_nonneg my
        linarith
      have hz : (0 : ℚ) < r.size.z := by
        have : (0 : ℚ) ≤ (mz : ℚ) := Nat.cast_nonneg mz
        linarith
      refine ⟨by linarith, by linarith, by linarith, by linarith, by linarith, by linarith⟩
    by_cases he : (jsEvenQ r.size.x || jsEvenQ r.size.y || jsEvenQ r.size.z) = true
    · rw [RoomBox.getPointCloud, if_pos he, List.mem_append] at hp
      rcases hp with hp | hp
      · exact hgrid p hp
      · rw [List.mem_singleton] at hp
        subst hp
        exact hcenter
    · rw [RoomBox.getPointCloud, if_neg he] at hp
      exact hgrid p hp

/-- Concrete room for the C6 witness: size (2, 1, 1) centred at (5, 0, 0). -/
def roomC6w : RoomBox := ⟨⟨5, 0, 0⟩, ⟨2, 1, 1⟩⟩

/-- C6 amended claim exercised concretely: size component 2 is even, so the
exact center is sampled, and every sample of this room lies strictly inside
its volume (shown here for the center itself). -/
theorem C6_pointCloud_amended_witness :
    (jsEvenQ roomC6w.size.x || jsEvenQ roomC6w.size.y || jsEvenQ roomC6w.size.z) = true ∧
    roomC6w.position ∈ roomC6w.getPointCloud ∧
    roomC6w.strictlyInside roomC6w.position := by
  have h := C6_pointCloud_amended roomC6w
  have he : (jsEvenQ roomC6w.size.x || jsEvenQ roomC6w.size.y || jsEvenQ roomC6w.size.z) = true := by
    rfl
  have hmem := h.1 he
  exact ⟨he, hmem,
    h.2 ⟨3, by rw [show roomC6w.size.x = 2 from rfl]; norm_num⟩
      ⟨1, by rw [show roomC6w.size.y = 1 from rfl]; norm_num⟩
      ⟨1, by rw [show roomC6w.size.z = 1 from rfl]; norm_num⟩ roomC6w.position hmem⟩

/- ------------------------------------------------------------------ -/
/- OptimizationManager.optimize (C3, C4, C5).  Router references are
   modelled as indices into the manager's router list, observation Vector3
   objects as indices into the observation array (JS Sets compare object
   references, and each observation owns one Vector3 object). -/
/- ------------------------------------------------------------------ -/

/-- Observation entry of the `PointCloud` (line 10): the sampled coordinate
paired with its currently assigned Router (or null). -/
structure Obs where
  pos : Vec3
  assigned : Option Nat
deriving DecidableEq

/-- Mutable optimizer state of one Router: its position — `none` models the
NaN vector that `divideScalar(0)` produces for a router with no assigned
points — and its `points` set, stored as observation indices in insertion
order. -/
structure RouterState where
  position : Option Vec3
  points : List Nat
deriving DecidableEq

/-- Optimizer loop state: the manager's router list, the observation array,
and the `reassignments` counter of the current iteration. -/
structure KState where
  routers : List RouterState
  observations : List Obs
  reassignments : Nat
deriving DecidableEq

/-- Squared Euclidean distance.  The source compares `distanceTo` values,
i.e. nonnegative square roots, which is equivalent to comparing the squares;
the model therefore never needs the (usually irrational) root itself. -/
def distSq (a b : Vec3) : ℚ :=
  (a.x - b.x) ^ 2 + (a.y - b.y) ^ 2 + (a.z - b.z) ^ 2

/-- Comparison `current.position.distanceTo(o) < best.position.distanceTo(o)`
(lines 324): any comparison involving a NaN position is false in JS. -/
def posDistLt (current best : Option Vec3) (o : Vec3) : Bool :=
  match current, best with
  | some a, some b => distSq a o < distSq b o
  | _, _ => false

/-- Fallback for out-of-range indexing, never reached on the modelled paths. -/
def dummyRouter : RouterState := ⟨none, []⟩

/-- Fallback observation for out-of-range indexing, never reached. -/
def dummyObs : Obs := ⟨⟨0, 0, 0⟩, none⟩

/-- The reduce of `Array.from(this.routers)` with no initial value (lines
323-328): a JS TypeError on an empty array, modelled as `none`; otherwise a
fold from the first router that moves to `current` only on a strictly
smaller distance (ties and NaN comparisons keep `best`), returning the index
of the winning router. -/
def closestRouter (routers : List RouterState) (o : Vec3) : Option Nat :=
  match routers with
  | [] => none
  | _ :: _ =>
    some (((List.range routers.length).drop 1).foldl
      (fun best i =>
        if posDistLt ((routers.getD i dummyRouter).position)
            ((routers.getD best dummyRouter).position) o then i else best) 0)

/-- Body of the assignment closure for the observation at index `oi` (lines
321-335): find the closest router — throwing if there is none — and if it
differs from the current assignment (JS `!==` on router references), move
the observation's index between the two routers' point sets, record the new
assignment and count a reassignment. -/
def assignObs (st : KState) (oi : Nat) : Except KState KState :=
  let obs := st.observations.getD oi dummyObs
  match closestRouter st.routers obs.pos with
  | none => .error st
  | some ci =>
    if obs.assigned ≠ some ci then
      let routers1 := match obs.assigned with
        | some ri => st.routers.set ri
            { st.routers.getD ri dummyRouter with
              points := jsSetDelete ((st.routers.getD ri dummyRouter).points) oi }
        | none => st.routers
      let routers2 := routers1.set ci
        { routers1.getD ci dummyRouter with
          points := jsSetAdd ((routers1.getD ci dummyRouter).points) oi }
      .ok { routers := routers2,
            observations := st.observations.set oi { obs with assigned := some ci },
            reassignments := st.reassignments + 1 }
    else .ok st

/-- Assignment pass over a list of observation indices, aborting — with the
state as it stands — at a thrown TypeError. -/
def assignFrom : KState → List Nat → Except KState KState
  | st, [] => .ok st
  | st, oi :: rest =>
    match assignObs st oi with
    | .error e => .error e
    | .ok st' => assignFrom st' rest

/-- The `assign` closure (lines 320-336): one pass over every observation in
array order. -/
def kAssign (st : KState) : Except KState KState :=
  assignFrom st (List.range st.observations.length)

/-- Mean position of a router's assigned points (lines 347-348): the
componentwise sum divided by the count; with zero points JS divides the zero
vector by zero and the position becomes the NaN vector (`none`). -/
def meanOfPoints (observations : List Obs) (pts : List Nat) : Option Vec3 :=
  let sum := pts.foldl
    (fun acc i =>
      let p := (observations.getD i dummyObs).pos
      Vec3.mk (acc.x + p.x) (acc.y + p.y) (acc.z + p.z))
    ⟨0, 0, 0⟩
  if pts.length = 0 then none
  else some ⟨sum.x / pts.length, sum.y / pts.length, sum.z / pts.length⟩

/-- Update step (lines 345-351): every router's position becomes the mean of
its assigned points, stored silently. -/
def kUpdate (st : KState) : KState :=
  { st with routers :=
      st.routers.map (fun r => { r with position := meanOfPoints st.observations r.points }) }

/-- Lloyd iteration (lines 337-352): each do-while pass resets
`reassignments`, runs the assignment pass (which may throw) and the update
step, and repeats while iterations remain (cap 10) and the pass moved some
observation. -/
def kmeansIter : Nat → KState → Except KState KState
  | 0, st => .ok st
  | fuel + 1, st =>
    match kAssign { st with reassignments := 0 } with
    | .error e => .error e
    | .ok st1 =>
      let st2 := kUpdate st1
      if st2.reassignments > 0 then kmeansIter fuel st2 else .ok st2

/-- Snap of one router (lines 356-367): `Array.from(r.points).reduce` with no
initial value throws on a router with an empty point set; otherwise it picks
the assigned observation closest to the router's (possibly NaN) position —
every comparison against NaN is false, so a NaN position keeps the first
point — and stores its coordinates through `setPosition` (not silent). -/
def snapRouter (observations : List Obs) (r : RouterState) : Option RouterState :=
  match r.points with
  | [] => none
  | p0 :: rest =>
    let closest := rest.foldl
      (fun best i =>
        match r.position with
        | none => best
        | some p =>
          if distSq ((observations.getD i dummyObs).pos) p <
              distSq ((observations.getD best dummyObs).pos) p then i else best)
      p0
    some { r with position := some ((observations.getD closest dummyObs).pos) }

/-- Snap pass over the router list in order; `snapped` holds the routers
already processed, and a throw aborts with the list as it stands. -/
def snapFrom (observations : List Obs) : List RouterState → List RouterState →
    Except (List RouterState) (List RouterState)
  | snapped, [] => .ok snapped
  | snapped, r :: rest =>
    match snapRouter observations r with
    | none => .error (snapped ++ r :: rest)
    | some r' => snapFrom observations (snapped ++ [r']) rest

/-- JS division with `none` for the NaN (or infinite) result of a zero
divisor. -/
def jsDiv (a b : ℚ) : Option ℚ := if b = 0 then none else some (a / b)

/-- OptimizationManager.getScore (lines 377-389): sum `r.getStrength(p)` over
every router's assigned points and divide by the total point count.  The
per-point strength `45 * 0.5 ^ (distance / 5)` is transcendental in the
distance, so it is abstracted into the parameter `strengthAt`; no claim here
depends on its values, only on the final division's divisor. -/
def getScore (strengthAt : Option Vec3 → Vec3 → ℚ) (observations : List Obs)
    (routers : List RouterState) : Option ℚ :=
  let pointCount := (routers.map (fun r => r.points.length)).sum
  let sumOfStrengths := (routers.map
    (fun r => (r.points.map
      (fun i => strengthAt r.position ((observations.getD i dummyObs).pos))).sum)).sum
  jsDiv sumOfStrengths (pointCount : ℚ)

/-- Outcome of `optimize`: either a thrown TypeError (reduce of an empty
collection) with the manager's router list at that moment — the created
routers stay attached — or a normal return with the routers and the score
(`none` is a NaN score). -/
inductive OptResult where
  | threw (routers : List RouterState)
  | returned (routers : List RouterState) (score : Option ℚ)
deriving DecidableEq

/-- Router list of either outcome. -/
def OptResult.routersOf : OptResult → List RouterState
  | .threw rs => rs
  | .returned rs _ => rs

/-- Clamp of the requested router count (line 304): a missing (or non-numeric)
argument, or one exceeding the room count, becomes the room count; every
other value — including 0 and negatives — is kept as is. -/
def clampRouterCount (rooms : List RoomBox) (routerCount : Option Int) : Int :=
  match routerCount with
  | none => rooms.length
  | some k => if k > (rooms.length : Int) then rooms.length else k

/-- Seeding (lines 311-315): `routerCount` fresh routers, the i-th positioned
at the center of the i-th room; the clamp keeps the index in range on every
reachable path, and a negative count runs the loop zero times. -/
def seedRouters (rooms : List RoomBox) (n : Int) : List RouterState :=
  (List.range n.toNat).map
    (fun (i : ℕ) =>
      { position := some ((rooms.getD i ⟨⟨0, 0, 0⟩, ⟨0, 0, 0⟩⟩).position), points := [] })

/-- OptimizationManager.optimize (lines 300-375): gather the observation cloud
from the cached room set, clamp the requested count, dispose of the previous
routers, seed new ones, run the capped Lloyd iteration, snap each router to
its nearest assigned point, re-run one assignment pass over the moved
routers, and score the final partition. -/
def optimize (strengthAt : Option Vec3 → Vec3 → ℚ) (rooms : List RoomBox)
    (routerCount : Option Int) : OptResult :=
  let observations := (rooms.flatMap RoomBox.getPointCloud).map (fun p => Obs.mk p none)
  let rc := clampRouterCount rooms routerCount
  let st0 : KState := ⟨seedRouters rooms rc, observations, 0⟩
  match kmeansIter 10 st0 with
  | .error e => .threw e.routers
  | .ok st1 =>
    match snapFrom st1.observations [] st1.routers with
    | .error rs => .threw rs
    | .ok rs =>
      match kAssign ⟨rs, st1.observations, st1.reassignments⟩ with
      | .error e => .threw e.routers
      | .ok st2 => .returned st2.routers (getScore strengthAt st2.observations st2.routers)

/-- Router list carried by an assignment-pass outcome (both the thrown and the
normal case). -/
def exceptKRouters : Except KState KState → List RouterState
  | .error e => e.routers
  | .ok s => s.routers

/-- Router list carried by a snap-pass outcome. -/
def exceptLRouters : Except (List RouterState) (List RouterState) → List RouterState
  | .error rs => rs
  | .ok rs => rs

/-- One assignment body never changes the number of routers. -/
theorem assignObs_routers_length (st : KState) (oi : Nat) :
    (exceptKRouters (assignObs st oi)).length = st.routers.length := by
  simp only [assignObs]
  split
  · rfl
  · split
    · simp only [exceptKRouters]
      split <;> simp [List.length_set]
    · rfl

/-- An assignment pass never changes the number of routers. -/
theorem assignFrom_routers_length (l : List Nat) :
    ∀ st, (exceptKRouters (assignFrom st l)).length = st.routers.length := by
  induction l with
  | nil =>
    intro st
    rfl
  | cons oi rest ih =>
    intro st
    have h := assignObs_routers_length st oi
    rcases he : assignObs st oi with e | st'
    · rw [he] at h
      simpa [assignFrom, he, exceptKRouters] using h
    · rw [he] at h
      simp only [assignFrom, he]
      rw [ih st']
      simpa [exceptKRouters] using h

/-- The `assign` closure never changes the number of routers. -/
theorem kAssign_routers_length (st : KState) :
    (exceptKRouters (kAssign st)).length = st.routers.length :=
  assignFrom_routers_length _ st

/-- The update step never changes the number of routers. -/
theorem kUpdate_routers_length (st : KState) :
    (kUpdate st).routers.length = st.routers.length := by
  simp [kUpdate]

/-- The Lloyd iteration never changes the number of routers. -/
theorem kmeansIter_routers_length (fuel : Nat) :
    ∀ st, (exceptKRouters (kmeansIter fuel st)).length = st.routers.length := by
  induction fuel with
  | zero =>
    intro st
    rfl
  | succ f ih =>
    intro st
    have h := kAssign_routers_length { st with reassignments := 0 }
    rcases he : kAssign { st with reassignments := 0 } with e | st1
    · rw [he] at h
      simpa [kmeansIter, he, exceptKRouters] using h
    · rw [he] at h
      simp only [kmeansIter, he]
      by_cases hr : (kUpdate st1).reassignments > 0
      · simp only [hr, if_pos]
        rw [ih (kUpdate st1), kUpdate_routers_length]
        simpa [exceptKRouters] using h
      · simp only [hr, if_neg, not_false_iff]
        rw [show exceptKRouters (Except.ok (kUpdate st1)) = (kUpdate st1).routers from rfl,
          kUpdate_routers_length]
        simpa [exceptKRouters] using h

/-- The snap pass never changes the number of routers. -/
theorem snapFrom_routers_length (observations : List Obs) :
    ∀ (l snapped : List RouterState),
      (exceptLRouters (snapFrom observations snapped l)).length =
        snapped.length + l.length := by
  intro l
  induction l with
  | nil =>
    intro snapped
    simp [snapFrom, exceptLRouters]
  | cons r rest ih =>
    intro snapped
    rcases hs : snapRouter observations r with _ | r'
    · simp [snapFrom, hs, exceptLRouters]
    · rw [snapFrom, hs]
      rw [ih (snapped ++ [r'])]
      simp only [List.length_append, List.length_cons, List.length_nil]
      omega

/-- The routers reported by `optimize` — thrown or returned — are exactly as
many as were seeded. -/
theorem optimize_routers_length (f : Option Vec3 → Vec3 → ℚ) (rooms : List RoomBox)
    (k : Option Int) :
    ((optimize f rooms k).routersOf).length =
      (seedRouters rooms (clampRouterCount rooms k)).length := by
  simp only [optimize]
  have h1 := kmeansIter_routers_length 10
    ⟨seedRouters rooms (clampRouterCount rooms k),
     (rooms.flatMap RoomBox.getPointCloud).map (fun p => Obs.mk p none), 0⟩
  rcases he : kmeansIter 10
      ⟨seedRouters rooms (clampRouterCount rooms k),
       (rooms.flatMap RoomBox.getPointCloud).map (fun p => Obs.mk p none), 0⟩ with e | st1
  · rw [he] at h1
    simpa [he, OptResult.routersOf, exceptKRouters] using h1
  · rw [he] at h1
    simp only [exceptKRouters] at h1
    have h2 := snapFrom_routers_length st1.observations st1.routers []
    rcases hs : snapFrom st1.observations [] st1.routers with rs | rs
    · rw [hs] at h2
      simp only [exceptLRouters, List.length_nil, Nat.zero_add] at h2
      simp [he, hs, OptResult.routersOf, h2, h1]
    · rw [hs] at h2
      simp only [exceptLRouters, List.length_nil, Nat.zero_add] at h2
      have h3 := kAssign_routers_length ⟨rs, st1.observations, st1.reassignments⟩
      rcases ha : kAssign ⟨rs, st1.observations, st1.reassignments⟩ with e2 | st2
      · rw [ha] at h3
        simp only [exceptKRouters] at h3
        simp [he, hs, ha, OptResult.routersOf, h3, h2, h1]
      · rw [ha] at h3
        simp only [exceptKRouters] at h3
        simp [he, hs, ha, OptResult.routersOf, h3, h2, h1]

/-- Indexed traversal of a list by `getD` over its index range is just `map`. -/
theorem range_getD_map {α β : Type} (l : List α) (d : α) (f : α → β) :
    (List.range l.length).map (fun (i : ℕ) => f (l.getD i d)) = l.map f := by
  apply List.ext_getElem
  · simp
  · intro i h1 h2
    simp only [List.getElem_map, List.getElem_range]
    rw [List.getD_eq_getElem l d (by simpa using h2)]


/-- Seeding with the full room count places one router at each room's center,
in room order. -/
theorem seedRouters_full (rooms : List RoomBox) :
    seedRouters rooms (rooms.length : Int) =
      rooms.map (fun r => { position := some r.position, points := ([] : List Nat) }) := by
  unfold seedRouters
  rw [Int.toNat_natCast]
  exact range_getD_map rooms ⟨⟨0, 0, 0⟩, ⟨0, 0, 0⟩⟩
    (fun r : RoomBox => ({ position := some r.position, points := ([] : List Nat) } : RouterState))

/-- C3: with at least one room and a requested count k exceeding the room
count, `optimize(k)` clamps to the room count, seeds exactly one router at
the center of each room (in iteration order), and ends — normally or by the
degenerate-path TypeError — with exactly `roomCount` routers, not k. -/
theorem C3_router_count_bound (f : Option Vec3 → Vec3 → ℚ) (rooms : List RoomBox) (k : Int)
    (h1 : rooms ≠ []) (h2 : (rooms.length : Int) < k) :
    clampRouterCount rooms (some k) = (rooms.length : Int) ∧
    seedRouters rooms (clampRouterCount rooms (some k)) =
      rooms.map (fun r => { position := some r.position, points := ([] : List Nat) }) ∧
    ((optimize f rooms (some k)).routersOf).length = rooms.length := by
  have hcl : clampRouterCount rooms (some k) = (rooms.length : Int) := by
    simp only [clampRouterCount, if_pos h2]
  refine ⟨hcl, by rw [hcl]; exact seedRouters_full rooms, ?_⟩
  rw [optimize_routers_length, hcl, seedRouters_full rooms, List.length_map]

/-- Concrete two-room configuration for the C3 witness. -/
def roomsC3 : List RoomBox := [⟨⟨0, 0, 0⟩, ⟨1, 1, 1⟩⟩, ⟨⟨10, 0, 0⟩, ⟨1, 1, 1⟩⟩]

/-- Concrete stand-in for the strength function in witnesses; its values are
irrelevant to every property proved about `optimize`. -/
def zeroStrength : Option Vec3 → Vec3 → ℚ := fun _ _ => 0

/-- C3 exercised at two rooms with k = 5: the count clamps to 2, one seed per
room center, and the optimizer ends with 2 routers. -/
theorem C3_router_count_bound_witness :
    roomsC3 ≠ [] ∧ ((roomsC3.length : Int) < 5) ∧
    (clampRouterCount roomsC3 (some 5) = (roomsC3.length : Int) ∧
     seedRouters roomsC3 (clampRouterCount roomsC3 (some 5)) =
       roomsC3.map (fun r => { position := some r.position, points := ([] : List Nat) }) ∧
     ((optimize zeroStrength roomsC3 (some 5)).routersOf).length = roomsC3.length) :=
  ⟨by simp [roomsC3], by norm_num [roomsC3],
   C3_router_count_bound zeroStrength roomsC3 5 (by simp [roomsC3]) (by norm_num [roomsC3])⟩

/-- Grid points always land in the point cloud (the center, when added, is
appended after them). -/
theorem mem_getPointCloud_of_mem_gridPoints (r : RoomBox) (p : Vec3)
    (hp : p ∈ r.gridPoints) : p ∈ r.getPointCloud := by
  unfold RoomBox.getPointCloud
  split
  · simp [List.mem_append, hp]
  · exact hp

/-- A room whose three loops all run at least once has a non-empty cloud. -/
theorem getPointCloud_ne_nil (r : RoomBox) (hx : 0 < gridSteps r.size.x)
    (hy : 0 < gridSteps r.size.y) (hz : 0 < gridSteps r.size.z) :
    r.getPointCloud ≠ [] := by
  apply List.ne_nil_of_mem
  apply mem_getPointCloud_of_mem_gridPoints
  rw [mem_gridPoints]
  exact ⟨0, hx, 0, hy, 0, hz, rfl⟩

/-- The assignment pass throws (reduce of an empty array) as soon as there is
an observation but no router, leaving the state untouched. -/
theorem kAssign_empty_routers (st : KState) (hr : st.routers = [])
    (ho : st.observations ≠ []) : kAssign st = .error st := by
  unfold kAssign
  cases hO : st.observations with
  | nil => exact absurd hO ho
  | cons o rest =>
    rw [List.length_cons, List.range_succ_eq_map]
    have hobs0 : assignObs st 0 = .error st := by
      simp [assignObs, hr, closestRouter]
    simp [assignFrom, hobs0]

/-- The Lloyd iteration throws on its very first assignment pass when there
are observations but no routers. -/
theorem kmeansIter_throws (fuel : Nat) (st : KState) (hr : st.routers = [])
    (ho : st.observations ≠ []) :
    kmeansIter (fuel + 1) st = .error { st with reassignments := 0 } := by
  simp only [kmeansIter]
  rw [kAssign_empty_routers { st with reassignments := 0 } (by simpa using hr)
    (by simpa using ho)]

/-- A non-positive requested count survives the clamp unchanged. -/
theorem clampRouterCount_nonpos (rooms : List RoomBox) (k : Int) (hk : k ≤ 0) :
    clampRouterCount rooms (some k) = k := by
  simp only [clampRouterCount]
  rw [if_neg]
  omega

/-- A non-positive count seeds no router at all (the for loop runs 0 times). -/
theorem seedRouters_nonpos (rooms : List RoomBox) (k : Int) (hk : k ≤ 0) :
    seedRouters rooms k = [] := by
  simp [seedRouters, Int.toNat_of_nonpos hk]

/-- With a non-positive requested count and at least one observation point,
`optimize` creates no router and then throws in the assignment step. -/
theorem optimize_nonpos_throws (f : Option Vec3 → Vec3 → ℚ) (rooms : List RoomBox)
    (k : Int) (hk : k ≤ 0) (hobs : rooms.flatMap RoomBox.getPointCloud ≠ []) :
    optimize f rooms (some k) = .threw [] := by
  have hseed : seedRouters rooms (clampRouterCount rooms (some k)) = [] := by
    rw [clampRouterCount_nonpos rooms k hk]
    exact seedRouters_nonpos rooms k hk
  have hobs' : (rooms.flatMap RoomBox.getPointCloud).map (fun p => Obs.mk p none) ≠ [] := by
    simpa using hobs
  simp only [optimize, hseed]
  rw [show (10 : Nat) = 9 + 1 from rfl, kmeansIter_throws 9 _ rfl hobs']

/-- Concrete one-room configuration (the unit room at the origin). -/
def roomsC4 : List RoomBox := [roomC6a]

/-- The unit room's cloud is not empty. -/
theorem roomsC4_cloud_ne_nil : roomsC4.flatMap RoomBox.getPointCloud ≠ [] := by
  have h2 : gridSteps (1 : ℚ) = 2 := gridSteps_natCast 1 2 (by norm_num)
  have hne : roomC6a.getPointCloud ≠ [] := by
    apply getPointCloud_ne_nil
    · rw [show roomC6a.size.x = 1 from rfl, h2]
      omega
    · rw [show roomC6a.size.y = 1 from rfl, h2]
      omega
    · rw [show roomC6a.size.z = 1 from rfl, h2]
      omega
  simpa [roomsC4] using hne

/-- C4 counterexample: with one room (non-empty observation cloud),
`optimize(0)` creates no router and the assignment step's reduce over the
empty router collection throws a TypeError instead of running to
completion. -/
theorem C4_optimize_zero_throws_counterexample :
    roomsC4 ≠ [] ∧ optimize zeroStrength roomsC4 (some 0) = .threw [] :=
  ⟨by simp [roomsC4], optimize_nonpos_throws zeroStrength roomsC4 0 (by norm_num)
    roomsC4_cloud_ne_nil⟩

/-- C4 amended: a zero or negative requested count is not clamped up — the
seeding loop simply runs zero times, so no router is created — and as soon
as the rooms contribute at least one observation point the assignment step
throws (reduce of an empty collection); `optimize` does not run to
completion.  (With an empty observation set it would instead complete and
return a NaN score.) -/
theorem C4_optimize_nonpos_amended (f : Option Vec3 → Vec3 → ℚ) (rooms : List RoomBox)
    (k : Int) (hk : k ≤ 0) (hobs : rooms.flatMap RoomBox.getPointCloud ≠ []) :
    seedRouters rooms (clampRouterCount rooms (some k)) = [] ∧
    optimize f rooms (some k) = .threw [] := by
  constructor
  · rw [clampRouterCount_nonpos rooms k hk]
    exact seedRouters_nonpos rooms k hk
  · exact optimize_nonpos_throws f rooms k hk hobs

/-- C4 amended claim exercised at the one-room configuration with k = -1. -/
theorem C4_optimize_nonpos_amended_witness :
    ((-1 : Int) ≤ 0) ∧ roomsC4.flatMap RoomBox.getPointCloud ≠ [] ∧
    (seedRouters roomsC4 (clampRouterCount roomsC4 (some (-1))) = [] ∧
     optimize zeroStrength roomsC4 (some (-1)) = .threw []) :=
  ⟨by norm_num, roomsC4_cloud_ne_nil,
   C4_optimize_nonpos_amended zeroStrength roomsC4 (-1) (by norm_num) roomsC4_cloud_ne_nil⟩

/-- With no rooms there are no observations and no routers: `optimize` runs to
completion without throwing and `getScore` divides 0 by the 0 total point
count, returning the NaN score (`none`). -/
theorem optimize_no_rooms (f : Option Vec3 → Vec3 → ℚ) (k : Option Int) :
    optimize f [] k = .returned [] none := by
  have hseed : seedRouters [] (clampRouterCount [] k) = [] := by
    rcases k with _ | k
    · rfl
    · have h0 : (clampRouterCount [] (some k)).toNat = 0 := by
        simp only [clampRouterCount, List.length_nil, Nat.cast_zero]
        split <;> omega
      simp [seedRouters, h0]
  simp only [optimize, hseed, List.flatMap_nil, List.map_nil]
  rw [show kmeansIter 10 (⟨[], [], 0⟩ : KState) = .ok ⟨[], [], 0⟩ from rfl]
  have hscore : getScore f [] [] = none := by
    simp [getScore, jsDiv]
  simp [snapFrom, kAssign, assignFrom, hscore]

/-- C5 counterexample: at zero rooms `optimize` does create no routers and
returns the empty score, but that score is exactly the NaN produced by the
unguarded division `jsDiv 0 0` — the total point count divisor is 0 and the
division is still performed, refuting "without performing a division by
zero; ... guarded against a zero total-point-count divisor". -/
theorem C5_zero_rooms_divides_counterexample :
    optimize zeroStrength [] none = .returned [] none ∧
    getScore zeroStrength [] [] = jsDiv 0 0 ∧
    jsDiv 0 0 = none := by
  refine ⟨optimize_no_rooms zeroStrength none, ?_, ?_⟩
  · simp [getScore, jsDiv]
  · simp [jsDiv]

/-- C5 amended: with zero Room entities `optimize` creates no routers, runs to
completion without throwing, and returns the NaN score that the final
unguarded `sumOfStrengths / pointCount` division produces for the zero total
point count (there is no guard on the divisor; JS merely turns 0/0 into NaN
rather than an exception). -/
theorem C5_zero_rooms_amended (f : Option Vec3 → Vec3 → ℚ) (k : Option Int) :
    optimize f [] k = .returned [] none :=
  optimize_no_rooms f k
